import Mathlib

/-!
kImageAnnotator: the annotation settings panel.

A shallow embedding of `src/gui/annotator/AnnotationSettings.cpp`.

The panel owns a pointer to a `Config`, eight picker widgets and a
`WidgetConfigurator`.  Every member function of the class is embedded as a
function on the record `AnnotationSettings`, one Lean step per C++ statement.
The record also carries `calls`, the sequence of mutating calls the panel made
on its collaborators and of the signals it emitted, in program order.

The collaborating classes (`Config`, the pickers, `WidgetConfigurator`, the
annotation items and their properties) and the enums are declared in other
files of the repository; their models are marked as such below. Following the
spec, a picker is a cell holding one scalar value: a setter called by the panel
stores its argument and a getter returns what is stored. Whether a widget
adjusts a value it is given, or emits its value-changed signal when the panel
sets it, is decided in those other files and is not part of this model; the
slots are run only through `connected` or by name.
-/

namespace kImageAnnotator

/-! ## Collaborating types -/

/-- Modelled from the spec: the enum `ToolTypes` is declared outside
`AnnotationSettings.cpp`. The source names the enumerator `Select`; the spec
names the text, blur and arrow tools; `other` stands for the remaining
enumerators. -/
inductive ToolTypes where
  | Select
  | Text
  | Blur
  | Arrow
  | other (index : Nat)
  deriving DecidableEq

/-- Modelled from the spec: the enum `FillTypes` is declared outside
`AnnotationSettings.cpp`; an enumerator is identified by its index. -/
structure FillTypes where
  index : Nat
  deriving DecidableEq

/-- The toolkit colour value `QColor`, identified by its RGBA code. -/
structure QColor where
  rgba : Nat
  deriving DecidableEq

/-- The toolkit font value `QFont`; only `pointSize()` is used by the panel. -/
structure QFont where
  mPointSize : Int
  deriving DecidableEq

/-- Accessor `QFont::pointSize()`. -/
def QFont.pointSize (f : QFont) : Int := f.mPointSize

/-- Modelled from the spec: class `Config` is declared outside
`AnnotationSettings.cpp`. The spec: "a configuration object (external, holds
per-tool settings)". It holds the selected tool, one colour, text colour,
width, fill type and font size per tool, and one blur radius (its accessor
takes no tool argument in the source). -/
structure Config where
  mSelectedTool : ToolTypes
  mToolColor : ToolTypes → QColor
  mToolTextColor : ToolTypes → QColor
  mToolWidth : ToolTypes → Int
  mToolFillType : ToolTypes → FillTypes
  mToolFontSize : ToolTypes → Int
  mBlurRadius : Int

namespace Config

/-- Getter `Config::selectedTool()`. -/
def selectedTool (c : Config) : ToolTypes := c.mSelectedTool

/-- Getter `Config::toolColor(tool)`. -/
def toolColor (c : Config) (tool : ToolTypes) : QColor := c.mToolColor tool

/-- Getter `Config::toolTextColor(tool)`. -/
def toolTextColor (c : Config) (tool : ToolTypes) : QColor := c.mToolTextColor tool

/-- Getter `Config::toolWidth(tool)`. -/
def toolWidth (c : Config) (tool : ToolTypes) : Int := c.mToolWidth tool

/-- Getter `Config::toolFillType(tool)`. -/
def toolFillType (c : Config) (tool : ToolTypes) : FillTypes := c.mToolFillType tool

/-- Getter `Config::toolFontSize(tool)`. -/
def toolFontSize (c : Config) (tool : ToolTypes) : Int := c.mToolFontSize tool

/-- Getter `Config::blurRadius()`. -/
def blurRadius (c : Config) : Int := c.mBlurRadius

/-- Setter `Config::setSelectedTool(tool)`. -/
def setSelectedTool (c : Config) (tool : ToolTypes) : Config :=
  { c with mSelectedTool := tool }

/-- Setter `Config::setToolColor(color, tool)`: replaces the entry of `tool`. -/
def setToolColor (c : Config) (color : QColor) (tool : ToolTypes) : Config :=
  { c with mToolColor := fun t => if t = tool then color else c.mToolColor t }

/-- Setter `Config::setToolTextColor(color, tool)`. -/
def setToolTextColor (c : Config) (color : QColor) (tool : ToolTypes) : Config :=
  { c with mToolTextColor := fun t => if t = tool then color else c.mToolTextColor t }

/-- Setter `Config::setToolWidth(size, tool)`. -/
def setToolWidth (c : Config) (size : Int) (tool : ToolTypes) : Config :=
  { c with mToolWidth := fun t => if t = tool then size else c.mToolWidth t }

/-- Setter `Config::setToolFillType(fill, tool)`. -/
def setToolFillType (c : Config) (fill : FillTypes) (tool : ToolTypes) : Config :=
  { c with mToolFillType := fun t => if t = tool then fill else c.mToolFillType t }

/-- Setter `Config::setToolFontSize(size, tool)`. -/
def setToolFontSize (c : Config) (size : Int) (tool : ToolTypes) : Config :=
  { c with mToolFontSize := fun t => if t = tool then size else c.mToolFontSize t }

/-- Setter `Config::setBlurRadius(radius)`. -/
def setBlurRadius (c : Config) (radius : Int) : Config :=
  { c with mBlurRadius := radius }

end Config

/-- Modelled from the spec: class `ToolPicker` is declared outside
`AnnotationSettings.cpp`. The spec: a picker "holds one scalar value". -/
structure ToolPicker where
  mSelectedToolType : ToolTypes
  deriving DecidableEq

/-- Getter `ToolPicker::tool()`. -/
def ToolPicker.tool (p : ToolPicker) : ToolTypes := p.mSelectedToolType

/-- Setter `ToolPicker::setTool(tool)`: the picker holds `tool` afterwards. -/
def ToolPicker.setTool (_p : ToolPicker) (tool : ToolTypes) : ToolPicker :=
  { mSelectedToolType := tool }

/-- Modelled from the spec: class `ColorPicker` is declared outside
`AnnotationSettings.cpp`. The spec: a picker "holds one scalar value - a
color, a number, a fill type". -/
structure ColorPicker where
  mColor : QColor
  deriving DecidableEq

/-- Getter `ColorPicker::color()`. -/
def ColorPicker.color (p : ColorPicker) : QColor := p.mColor

/-- Setter `ColorPicker::setColor(color)`: the picker holds `color` afterwards. -/
def ColorPicker.setColor (_p : ColorPicker) (color : QColor) : ColorPicker :=
  { mColor := color }

/-- Modelled from the spec: class `NumberPicker` is declared outside
`AnnotationSettings.cpp`. The spec: a picker "holds one scalar value - a
color, a number, a fill type". The range given to `setRange` is recorded; the
spec describes no effect of it on the held number, so `setNumber` stores its
argument as given. -/
structure NumberPicker where
  mNumber : Int
  mRange : Option (Int × Int)
  deriving DecidableEq

/-- Getter `NumberPicker::number()`. -/
def NumberPicker.number (p : NumberPicker) : Int := p.mNumber

/-- Setter `NumberPicker::setNumber(number)`: the picker holds `number` afterwards. -/
def NumberPicker.setNumber (p : NumberPicker) (number : Int) : NumberPicker :=
  { p with mNumber := number }

/-- Setter `NumberPicker::setRange(min, max)`. -/
def NumberPicker.setRange (p : NumberPicker) (min max : Int) : NumberPicker :=
  { p with mRange := some (min, max) }

/-- Modelled from the spec: class `FillTypePicker` is declared outside
`AnnotationSettings.cpp`. The spec: a picker "holds one scalar value - a
color, a number, a fill type". -/
structure FillTypePicker where
  mFillType : FillTypes
  deriving DecidableEq

/-- Getter `FillTypePicker::fillType()`. -/
def FillTypePicker.fillType (p : FillTypePicker) : FillTypes := p.mFillType

/-- Setter `FillTypePicker::setFillType(fill)`: the picker holds `fill` afterwards. -/
def FillTypePicker.setFillType (_p : FillTypePicker) (fill : FillTypes) : FillTypePicker :=
  { mFillType := fill }

/-- The widgets registered with the configurator in `initGui`. -/
inductive WidgetRole where
  | color
  | textColor
  | width
  | fillType
  | fontSize
  | firstNumber
  | blurRadius
  deriving DecidableEq

/-- Modelled from the spec: class `WidgetConfigurator` is declared outside
`AnnotationSettings.cpp`. It is told which widgets it manages and which tool
is current. -/
structure WidgetConfigurator where
  mCurrentTool : ToolTypes
  mWidgets : List WidgetRole
  deriving DecidableEq

/-- Registration `WidgetConfigurator::set...Widget(picker)`. -/
def WidgetConfigurator.setWidget (w : WidgetConfigurator) (role : WidgetRole) :
    WidgetConfigurator :=
  { w with mWidgets := w.mWidgets ++ [role] }

/-- Setter `WidgetConfigurator::setCurrentTool(tool)`. -/
def WidgetConfigurator.setCurrentTool (w : WidgetConfigurator) (tool : ToolTypes) :
    WidgetConfigurator :=
  { w with mCurrentTool := tool }

/-- The fields of the base class `AnnotationProperties` read by `loadFromItem`. -/
structure AnnotationProperties where
  mColor : QColor
  mTextColor : QColor
  mWidth : Int
  mFillType : FillTypes
  deriving DecidableEq

/-- Modelled from the spec: the dynamic type of the object behind the
`AnnotationProperties` pointer returned by `item->properties()`. The spec: "a
sum type over {BasicProperties, TextProperties, BlurProperties}";
`AnnotationTextProperties` adds a font, `AnnotationBlurProperties` a radius. -/
inductive PropertiesPtr where
  | basic (p : AnnotationProperties)
  | text (p : AnnotationProperties) (font : QFont)
  | blur (p : AnnotationProperties) (radius : Int)
  deriving DecidableEq

namespace PropertiesPtr

/-- The base-class part of the pointed-to object. -/
def base : PropertiesPtr → AnnotationProperties
  | basic p => p
  | text p _ => p
  | blur p _ => p

/-- Getter `properties->color()`. -/
def color (p : PropertiesPtr) : QColor := p.base.mColor

/-- Getter `properties->textColor()`. -/
def textColor (p : PropertiesPtr) : QColor := p.base.mTextColor

/-- Getter `properties->width()`. -/
def width (p : PropertiesPtr) : Int := p.base.mWidth

/-- Getter `properties->fillType()`. -/
def fillType (p : PropertiesPtr) : FillTypes := p.base.mFillType

/-- The cast `dynamic_cast<const AnnotationTextProperties *>(properties)`:
`none` is the null pointer, `some font` the text properties with their font. -/
def asTextProperties : PropertiesPtr → Option QFont
  | text _ font => some font
  | _ => none

/-- The cast `dynamic_cast<const AnnotationBlurProperties *>(properties)`:
`none` is the null pointer, `some radius` the blur properties with their radius. -/
def asBlurProperties : PropertiesPtr → Option Int
  | blur _ radius => some radius
  | _ => none

end PropertiesPtr

/-- Modelled from the spec: class `AbstractAnnotationItem` is declared outside
`AnnotationSettings.cpp`; the panel reads its properties and its tool type. -/
structure AbstractAnnotationItem where
  mProperties : PropertiesPtr
  mToolType : ToolTypes
  deriving DecidableEq

/-- Getter `item->properties()`. -/
def AbstractAnnotationItem.properties (i : AbstractAnnotationItem) : PropertiesPtr :=
  i.mProperties

/-- Getter `item->toolType()`. -/
def AbstractAnnotationItem.toolType (i : AbstractAnnotationItem) : ToolTypes :=
  i.mToolType

/-! ## The panel -/

/-- A mutating call made by the panel on a collaborator, or a signal it emits. -/
inductive Call where
  | configSetSelectedTool (tool : ToolTypes)
  | configSetToolColor (color : QColor) (tool : ToolTypes)
  | configSetToolTextColor (color : QColor) (tool : ToolTypes)
  | configSetToolWidth (size : Int) (tool : ToolTypes)
  | configSetToolFillType (fill : FillTypes) (tool : ToolTypes)
  | configSetToolFontSize (size : Int) (tool : ToolTypes)
  | configSetBlurRadius (radius : Int)
  | toolPickerSetTool (tool : ToolTypes)
  | colorPickerSetColor (color : QColor)
  | textColorPickerSetColor (color : QColor)
  | widthPickerSetNumber (number : Int)
  | fillTypePickerSetFillType (fill : FillTypes)
  | fontSizePickerSetNumber (number : Int)
  | blurRadiusPickerSetNumber (number : Int)
  | configuratorSetCurrentTool (tool : ToolTypes)
  | emitToolChanged (tool : ToolTypes)
  | emitFirstBadgeNumberChanged (number : Int)
  deriving DecidableEq

namespace Call

/-- Whether the call is a write to the configuration store. -/
def isConfigWrite : Call → Bool
  | configSetSelectedTool _ => true
  | configSetToolColor _ _ => true
  | configSetToolTextColor _ _ => true
  | configSetToolWidth _ _ => true
  | configSetToolFillType _ _ => true
  | configSetToolFontSize _ _ => true
  | configSetBlurRadius _ => true
  | _ => false

/-- Whether the call is an emitted signal. -/
def isEmit : Call → Bool
  | emitToolChanged _ => true
  | emitFirstBadgeNumberChanged _ => true
  | _ => false

/-- Whether the call is the emission of `toolChanged`. -/
def isToolChanged : Call → Bool
  | emitToolChanged _ => true
  | _ => false

end Call

/-- The members of class `AnnotationSettings`, the configuration object behind
`mConfig`, and the calls made so far. -/
structure AnnotationSettings where
  mConfig : Config
  mToolPicker : ToolPicker
  mColorPicker : ColorPicker
  mWidthPicker : NumberPicker
  mTextColorPicker : ColorPicker
  mFontSizePicker : NumberPicker
  mFillTypePicker : FillTypePicker
  mFirstNumberPicker : NumberPicker
  mBlurRadiusPicker : NumberPicker
  mWidgetConfigurator : WidgetConfigurator
  calls : List Call

namespace AnnotationSettings

/-- Appends a call to the record of calls. -/
def record (s : AnnotationSettings) (c : Call) : AnnotationSettings :=
  { s with calls := s.calls ++ [c] }

/-! ### Getters (lines 68-71 and 179-207) -/

/-- Getter `AnnotationSettings::toolType()`: `return mToolPicker->tool();`. -/
def toolType (s : AnnotationSettings) : ToolTypes := s.mToolPicker.tool

/-- Getter `AnnotationSettings::toolColor()`: `return mColorPicker->color();`. -/
def toolColor (s : AnnotationSettings) : QColor := s.mColorPicker.color

/-- Getter `AnnotationSettings::textColor()`: `return mTextColorPicker->color();`. -/
def textColor (s : AnnotationSettings) : QColor := s.mTextColorPicker.color

/-- Getter `AnnotationSettings::toolWidth()`: `return mWidthPicker->number();`. -/
def toolWidth (s : AnnotationSettings) : Int := s.mWidthPicker.number

/-- Getter `AnnotationSettings::fillType()`: `return mFillTypePicker->fillType();`. -/
def fillType (s : AnnotationSettings) : FillTypes := s.mFillTypePicker.fillType

/-- Getter `AnnotationSettings::fontSize()`: `return mFontSizePicker->number();`. -/
def fontSize (s : AnnotationSettings) : Int := s.mFontSizePicker.number

/-- Getter `AnnotationSettings::blurRadius()`: `return mBlurRadiusPicker->number();`. -/
def blurRadius (s : AnnotationSettings) : Int := s.mBlurRadiusPicker.number

/-! ### Single statements -/

/-- Statement `mColorPicker->setColor(color);`. -/
def colorPickerSetColor (s : AnnotationSettings) (color : QColor) : AnnotationSettings :=
  ({ s with mColorPicker := s.mColorPicker.setColor color }).record (.colorPickerSetColor color)

/-- Statement `mTextColorPicker->setColor(color);`. -/
def textColorPickerSetColor (s : AnnotationSettings) (color : QColor) : AnnotationSettings :=
  ({ s with mTextColorPicker := s.mTextColorPicker.setColor color }).record
    (.textColorPickerSetColor color)

/-- Statement `mWidthPicker->setNumber(number);`. -/
def widthPickerSetNumber (s : AnnotationSettings) (number : Int) : AnnotationSettings :=
  ({ s with mWidthPicker := s.mWidthPicker.setNumber number }).record
    (.widthPickerSetNumber number)

/-- Statement `mFillTypePicker->setFillType(fill);`. -/
def fillTypePickerSetFillType (s : AnnotationSettings) (fill : FillTypes) :
    AnnotationSettings :=
  ({ s with mFillTypePicker := s.mFillTypePicker.setFillType fill }).record
    (.fillTypePickerSetFillType fill)

/-- Statement `mFontSizePicker->setNumber(number);`. -/
def fontSizePickerSetNumber (s : AnnotationSettings) (number : Int) : AnnotationSettings :=
  ({ s with mFontSizePicker := s.mFontSizePicker.setNumber number }).record
    (.fontSizePickerSetNumber number)

/-- Statement `mBlurRadiusPicker->setNumber(number);`. -/
def blurRadiusPickerSetNumber (s : AnnotationSettings) (number : Int) : AnnotationSettings :=
  ({ s with mBlurRadiusPicker := s.mBlurRadiusPicker.setNumber number }).record
    (.blurRadiusPickerSetNumber number)

/-- Statement `mToolPicker->setTool(tool);`. -/
def toolPickerSetTool (s : AnnotationSettings) (tool : ToolTypes) : AnnotationSettings :=
  ({ s with mToolPicker := s.mToolPicker.setTool tool }).record (.toolPickerSetTool tool)

/-- Statement `mWidgetConfigurator.setCurrentTool(tool);`. -/
def configuratorSetCurrentTool (s : AnnotationSettings) (tool : ToolTypes) :
    AnnotationSettings :=
  ({ s with mWidgetConfigurator := s.mWidgetConfigurator.setCurrentTool tool }).record
    (.configuratorSetCurrentTool tool)

/-- Statement `mConfig->setSelectedTool(tool);`. -/
def configSetSelectedTool (s : AnnotationSettings) (tool : ToolTypes) : AnnotationSettings :=
  ({ s with mConfig := s.mConfig.setSelectedTool tool }).record (.configSetSelectedTool tool)

/-- Statement `mConfig->setToolColor(color, tool);`. -/
def configSetToolColor (s : AnnotationSettings) (color : QColor) (tool : ToolTypes) :
    AnnotationSettings :=
  ({ s with mConfig := s.mConfig.setToolColor color tool }).record
    (.configSetToolColor color tool)

/-- Statement `mConfig->setToolTextColor(color, tool);`. -/
def configSetToolTextColor (s : AnnotationSettings) (color : QColor) (tool : ToolTypes) :
    AnnotationSettings :=
  ({ s with mConfig := s.mConfig.setToolTextColor color tool }).record
    (.configSetToolTextColor color tool)

/-- Statement `mConfig->setToolWidth(size, tool);`. -/
def configSetToolWidth (s : AnnotationSettings) (size : Int) (tool : ToolTypes) :
    AnnotationSettings :=
  ({ s with mConfig := s.mConfig.setToolWidth size tool }).record
    (.configSetToolWidth size tool)

/-- Statement `mConfig->setToolFillType(fill, tool);`. -/
def configSetToolFillType (s : AnnotationSettings) (fill : FillTypes) (tool : ToolTypes) :
    AnnotationSettings :=
  ({ s with mConfig := s.mConfig.setToolFillType fill tool }).record
    (.configSetToolFillType fill tool)

/-- Statement `mConfig->setToolFontSize(size, tool);`. -/
def configSetToolFontSize (s : AnnotationSettings) (size : Int) (tool : ToolTypes) :
    AnnotationSettings :=
  ({ s with mConfig := s.mConfig.setToolFontSize size tool }).record
    (.configSetToolFontSize size tool)

/-- Statement `mConfig->setBlurRadius(radius);`. -/
def configSetBlurRadius (s : AnnotationSettings) (radius : Int) : AnnotationSettings :=
  ({ s with mConfig := s.mConfig.setBlurRadius radius }).record (.configSetBlurRadius radius)

/-- Statement `emit toolChanged(tool);`. -/
def emitToolChanged (s : AnnotationSettings) (tool : ToolTypes) : AnnotationSettings :=
  s.record (.emitToolChanged tool)

/-- Statement `emit firstBadgeNumberChanged(number);`. -/
def emitFirstBadgeNumberChanged (s : AnnotationSettings) (number : Int) : AnnotationSettings :=
  s.record (.emitFirstBadgeNumberChanged number)

/-! ### Member functions -/

/-- Function `AnnotationSettings::loadFromItem(item)` (lines 44-60). A null
result of a `dynamic_cast` skips the guarded statement. -/
def loadFromItem (s : AnnotationSettings) (item : AbstractAnnotationItem) :
    AnnotationSettings :=
  let properties := item.properties
  let s1 := s.colorPickerSetColor properties.color
  let s2 := s1.textColorPickerSetColor properties.textColor
  let s3 := s2.widthPickerSetNumber properties.width
  let s4 := s3.fillTypePickerSetFillType properties.fillType
  let s5 :=
    match properties.asTextProperties with
    | some font => s4.fontSizePickerSetNumber font.pointSize
    | none => s4
  let s6 :=
    match properties.asBlurProperties with
    | some radius => s5.blurRadiusPickerSetNumber radius
    | none => s5
  s6.configuratorSetCurrentTool item.toolType

/-- Function `AnnotationSettings::activateSelectTool()` (lines 62-66). -/
def activateSelectTool (s : AnnotationSettings) : AnnotationSettings :=
  (s.toolPickerSetTool ToolTypes.Select).configuratorSetCurrentTool ToolTypes.Select

/-- Function `AnnotationSettings::loadToolTypeFromConfig()` (lines 121-124). -/
def loadToolTypeFromConfig (s : AnnotationSettings) : AnnotationSettings :=
  s.toolPickerSetTool s.mConfig.selectedTool

/-- Function `AnnotationSettings::loadFromConfig(tool)` (lines 126-135). -/
def loadFromConfig (s : AnnotationSettings) (tool : ToolTypes) : AnnotationSettings :=
  let s1 := s.colorPickerSetColor (s.mConfig.toolColor tool)
  let s2 := s1.textColorPickerSetColor (s1.mConfig.toolTextColor tool)
  let s3 := s2.widthPickerSetNumber (s2.mConfig.toolWidth tool)
  let s4 := s3.fillTypePickerSetFillType (s3.mConfig.toolFillType tool)
  let s5 := s4.fontSizePickerSetNumber (s4.mConfig.toolFontSize tool)
  let s6 := s5.blurRadiusPickerSetNumber s5.mConfig.blurRadius
  s6.configuratorSetCurrentTool tool

/-- Slot `AnnotationSettings::saveToolType(toolType)` (lines 137-142). -/
def saveToolType (s : AnnotationSettings) (toolType : ToolTypes) : AnnotationSettings :=
  let s1 := s.configSetSelectedTool toolType
  let s2 := s1.loadFromConfig toolType
  s2.emitToolChanged toolType

/-- Slot `AnnotationSettings::saveToolColor(color)` (lines 144-147). -/
def saveToolColor (s : AnnotationSettings) (color : QColor) : AnnotationSettings :=
  s.configSetToolColor color s.mToolPicker.tool

/-- Slot `AnnotationSettings::saveToolTextColor(color)` (lines 149-152). -/
def saveToolTextColor (s : AnnotationSettings) (color : QColor) : AnnotationSettings :=
  s.configSetToolTextColor color s.mToolPicker.tool

/-- Slot `AnnotationSettings::saveToolWidth(size)` (lines 154-157). -/
def saveToolWidth (s : AnnotationSettings) (size : Int) : AnnotationSettings :=
  s.configSetToolWidth size s.mToolPicker.tool

/-- Slot `AnnotationSettings::saveToolFillType(fill)` (lines 159-162). -/
def saveToolFillType (s : AnnotationSettings) (fill : FillTypes) : AnnotationSettings :=
  s.configSetToolFillType fill s.mToolPicker.tool

/-- Slot `AnnotationSettings::saveToolFontSize(size)` (lines 164-167). -/
def saveToolFontSize (s : AnnotationSettings) (size : Int) : AnnotationSettings :=
  s.configSetToolFontSize size s.mToolPicker.tool

/-- Slot `AnnotationSettings::saveFirstBadgeNumber(number)` (lines 169-172). -/
def saveFirstBadgeNumber (s : AnnotationSettings) (number : Int) : AnnotationSettings :=
  s.emitFirstBadgeNumberChanged number

/-- Slot `AnnotationSettings::saveBlurRadius(radius)` (lines 174-177). -/
def saveBlurRadius (s : AnnotationSettings) (radius : Int) : AnnotationSettings :=
  s.configSetBlurRadius radius

end AnnotationSettings

/-! ## Construction and signal connections -/

/-- The contents of the widgets right after their constructors ran. The
constructors are outside `AnnotationSettings.cpp`, so these contents are
inputs of the panel constructor. -/
structure FreshWidgets where
  tool : ToolTypes
  color : QColor
  width : Int
  textColor : QColor
  fontSize : Int
  fillType : FillTypes
  firstNumber : Int
  blurRadius : Int
  currentTool : ToolTypes

namespace AnnotationSettings

/-- Function `AnnotationSettings::initGui()` (lines 73-119): creates the
pickers, sets the three ranges and registers the seven widgets with the
configurator. Layout calls have no effect on the members modelled; the
`connect` calls are the table `connected` below. -/
def initGui (config : Config) (w : FreshWidgets) : AnnotationSettings :=
  let mToolPicker : ToolPicker := { mSelectedToolType := w.tool }
  let mColorPicker : ColorPicker := { mColor := w.color }
  let mWidthPicker : NumberPicker := { mNumber := w.width, mRange := none }
  let mTextColorPicker : ColorPicker := { mColor := w.textColor }
  let mFontSizePicker : NumberPicker :=
    NumberPicker.setRange { mNumber := w.fontSize, mRange := none } 10 40
  let mFillTypePicker : FillTypePicker := { mFillType := w.fillType }
  let mFirstNumberPicker : NumberPicker :=
    NumberPicker.setRange { mNumber := w.firstNumber, mRange := none } 1 100
  let mBlurRadiusPicker : NumberPicker :=
    NumberPicker.setRange { mNumber := w.blurRadius, mRange := none } 1 20
  let c0 : WidgetConfigurator := { mCurrentTool := w.currentTool, mWidgets := [] }
  let c1 := c0.setWidget WidgetRole.color
  let c2 := c1.setWidget WidgetRole.textColor
  let c3 := c2.setWidget WidgetRole.width
  let c4 := c3.setWidget WidgetRole.fillType
  let c5 := c4.setWidget WidgetRole.fontSize
  let c6 := c5.setWidget WidgetRole.firstNumber
  let c7 := c6.setWidget WidgetRole.blurRadius
  { mConfig := config
    mToolPicker := mToolPicker
    mColorPicker := mColorPicker
    mWidthPicker := mWidthPicker
    mTextColorPicker := mTextColorPicker
    mFontSizePicker := mFontSizePicker
    mFillTypePicker := mFillTypePicker
    mFirstNumberPicker := mFirstNumberPicker
    mBlurRadiusPicker := mBlurRadiusPicker
    mWidgetConfigurator := c7
    calls := [] }

/-- Constructor `AnnotationSettings::AnnotationSettings(config)` (lines 24-30):
`mConfig = config; initGui(); loadToolTypeFromConfig();`. -/
def create (config : Config) (w : FreshWidgets) : AnnotationSettings :=
  (initGui config w).loadToolTypeFromConfig

end AnnotationSettings

/-- A value-changed signal of one of the eight pickers, with its argument. -/
inductive PickerSignal where
  | toolPickerToolSelected (tool : ToolTypes)
  | colorPickerColorSelected (color : QColor)
  | widthPickerNumberSelected (number : Int)
  | textColorPickerColorSelected (color : QColor)
  | fontSizePickerNumberSelected (number : Int)
  | fillTypePickerFillSelected (fill : FillTypes)
  | firstNumberPickerNumberSelected (number : Int)
  | blurRadiusPickerNumberSelected (number : Int)
  deriving DecidableEq

/-- The slot each picker signal is connected to by the eight `connect` calls of
`initGui` (lines 111-118), run on the panel. -/
def connected : PickerSignal → AnnotationSettings → AnnotationSettings
  | .toolPickerToolSelected tool, s => s.saveToolType tool
  | .colorPickerColorSelected color, s => s.saveToolColor color
  | .widthPickerNumberSelected number, s => s.saveToolWidth number
  | .textColorPickerColorSelected color, s => s.saveToolTextColor color
  | .fontSizePickerNumberSelected number, s => s.saveToolFontSize number
  | .fillTypePickerFillSelected fill, s => s.saveToolFillType fill
  | .firstNumberPickerNumberSelected number, s => s.saveFirstBadgeNumber number
  | .blurRadiusPickerNumberSelected number, s => s.saveBlurRadius number

/-! ## Sequences of operations -/

/-- A public operation or slot of the panel, with its argument. -/
inductive Operation where
  | loadFromItem (item : AbstractAnnotationItem)
  | loadFromConfig (tool : ToolTypes)
  | activateSelectTool
  | saveToolType (tool : ToolTypes)
  | saveToolColor (color : QColor)
  | saveToolTextColor (color : QColor)
  | saveToolWidth (size : Int)
  | saveToolFillType (fill : FillTypes)
  | saveToolFontSize (size : Int)
  | saveBlurRadius (radius : Int)
  | saveFirstBadgeNumber (number : Int)
  deriving DecidableEq

/-- Runs one operation on the panel. -/
def Operation.run : Operation → AnnotationSettings → AnnotationSettings
  | .loadFromItem item, s => s.loadFromItem item
  | .loadFromConfig tool, s => s.loadFromConfig tool
  | .activateSelectTool, s => s.activateSelectTool
  | .saveToolType tool, s => s.saveToolType tool
  | .saveToolColor color, s => s.saveToolColor color
  | .saveToolTextColor color, s => s.saveToolTextColor color
  | .saveToolWidth size, s => s.saveToolWidth size
  | .saveToolFillType fill, s => s.saveToolFillType fill
  | .saveToolFontSize size, s => s.saveToolFontSize size
  | .saveBlurRadius radius, s => s.saveBlurRadius radius
  | .saveFirstBadgeNumber number, s => s.saveFirstBadgeNumber number

/-- The tool for which each per-tool picker was last loaded from the config or
last saved to the config. This is specification state used to state the
mirroring invariant; it is not a member of the class. -/
structure LastTools where
  color : ToolTypes
  textColor : ToolTypes
  width : ToolTypes
  fillType : ToolTypes
  fontSize : ToolTypes
  deriving DecidableEq

/-- All five per-tool pickers were last loaded for `tool`. -/
def LastTools.all (tool : ToolTypes) : LastTools :=
  { color := tool, textColor := tool, width := tool, fillType := tool, fontSize := tool }

/-- The panel together with the tools its pickers were last loaded or saved for. -/
structure Tracked where
  panel : AnnotationSettings
  last : LastTools

/-- The last tools after an operation is run on panel `s`: `loadFromConfig tool`
and `saveToolType tool` load all five pickers for `tool`; a per-tool save slot
saves its setting under the selected tool `toolType()`; `loadFromItem` (which
reads the item, not the config), `activateSelectTool`, `saveBlurRadius` and
`saveFirstBadgeNumber` load or save no per-tool setting. -/
def Operation.lastTools : Operation → AnnotationSettings → LastTools → LastTools
  | .loadFromItem _, _, l => l
  | .loadFromConfig tool, _, _ => LastTools.all tool
  | .activateSelectTool, _, l => l
  | .saveToolType tool, _, _ => LastTools.all tool
  | .saveToolColor _, s, l => { l with color := s.toolType }
  | .saveToolTextColor _, s, l => { l with textColor := s.toolType }
  | .saveToolWidth _, s, l => { l with width := s.toolType }
  | .saveToolFillType _, s, l => { l with fillType := s.toolType }
  | .saveToolFontSize _, s, l => { l with fontSize := s.toolType }
  | .saveBlurRadius _, _, l => l
  | .saveFirstBadgeNumber _, _, l => l

/-- Runs one operation on the panel and updates the last tools. -/
def Operation.track (op : Operation) (g : Tracked) : Tracked :=
  { panel := op.run g.panel, last := op.lastTools g.panel g.last }

/-- Runs a sequence of operations, first to last. -/
def trackAll : List Operation → Tracked → Tracked
  | [], g => g
  | op :: ops, g => trackAll ops (op.track g)

/-- The mirroring invariant of the data model: each per-tool picker holds the
value the config stores for the tool the picker was last loaded or saved for,
and the blur radius picker holds the config's blur radius. -/
def MirrorsLast (g : Tracked) : Prop :=
  g.panel.toolColor = g.panel.mConfig.toolColor g.last.color ∧
  g.panel.textColor = g.panel.mConfig.toolTextColor g.last.textColor ∧
  g.panel.toolWidth = g.panel.mConfig.toolWidth g.last.width ∧
  g.panel.fillType = g.panel.mConfig.toolFillType g.last.fillType ∧
  g.panel.fontSize = g.panel.mConfig.toolFontSize g.last.fontSize ∧
  g.panel.blurRadius = g.panel.mConfig.blurRadius

/-- Modelled from the spec: the widget side of a value change, which lives in
the picker classes outside `AnnotationSettings.cpp`. The spec: "changing a
picker value persists it under the currently selected tool's key"; when a
picker emits its value-changed signal with a value, the picker holds that
value. -/
def PickerSignal.valueChanged : PickerSignal → AnnotationSettings → AnnotationSettings
  | .toolPickerToolSelected tool, s => { s with mToolPicker := s.mToolPicker.setTool tool }
  | .colorPickerColorSelected color, s => { s with mColorPicker := s.mColorPicker.setColor color }
  | .widthPickerNumberSelected number, s =>
    { s with mWidthPicker := s.mWidthPicker.setNumber number }
  | .textColorPickerColorSelected color, s =>
    { s with mTextColorPicker := s.mTextColorPicker.setColor color }
  | .fontSizePickerNumberSelected number, s =>
    { s with mFontSizePicker := s.mFontSizePicker.setNumber number }
  | .fillTypePickerFillSelected fill, s =>
    { s with mFillTypePicker := s.mFillTypePicker.setFillType fill }
  | .firstNumberPickerNumberSelected number, s =>
    { s with mFirstNumberPicker := s.mFirstNumberPicker.setNumber number }
  | .blurRadiusPickerNumberSelected number, s =>
    { s with mBlurRadiusPicker := s.mBlurRadiusPicker.setNumber number }

/-- An event of the panel as it is wired: a picker changes to a value and its
connected slot runs with that value, or one of loadFromConfig,
activateSelectTool, saveToolType and saveFirstBadgeNumber is called. -/
inductive PanelEvent where
  | pickerChanged (signal : PickerSignal)
  | loadFromConfig (tool : ToolTypes)
  | activateSelectTool
  | saveToolType (tool : ToolTypes)
  | saveFirstBadgeNumber (number : Int)
  deriving DecidableEq

/-- Runs one event on the panel: for a picker change, the picker takes the
value and then the slot connected in `initGui` runs. -/
def PanelEvent.run : PanelEvent → AnnotationSettings → AnnotationSettings
  | .pickerChanged signal, s => connected signal (signal.valueChanged s)
  | .loadFromConfig tool, s => s.loadFromConfig tool
  | .activateSelectTool, s => s.activateSelectTool
  | .saveToolType tool, s => s.saveToolType tool
  | .saveFirstBadgeNumber number, s => s.saveFirstBadgeNumber number

/-- The last tools after an event on panel `s`: a tool selection and the two
loaders from the config load all five pickers for the tool; a change of a
per-tool picker saves that setting under the selected tool `toolType()`. -/
def PanelEvent.lastTools : PanelEvent → AnnotationSettings → LastTools → LastTools
  | .pickerChanged (.toolPickerToolSelected tool), _, _ => LastTools.all tool
  | .pickerChanged (.colorPickerColorSelected _), s, l => { l with color := s.toolType }
  | .pickerChanged (.widthPickerNumberSelected _), s, l => { l with width := s.toolType }
  | .pickerChanged (.textColorPickerColorSelected _), s, l =>
    { l with textColor := s.toolType }
  | .pickerChanged (.fontSizePickerNumberSelected _), s, l => { l with fontSize := s.toolType }
  | .pickerChanged (.fillTypePickerFillSelected _), s, l => { l with fillType := s.toolType }
  | .pickerChanged (.firstNumberPickerNumberSelected _), _, l => l
  | .pickerChanged (.blurRadiusPickerNumberSelected _), _, l => l
  | .loadFromConfig tool, _, _ => LastTools.all tool
  | .activateSelectTool, _, l => l
  | .saveToolType tool, _, _ => LastTools.all tool
  | .saveFirstBadgeNumber _, _, l => l

/-- Runs one event on the panel and updates the last tools. -/
def PanelEvent.track (ev : PanelEvent) (g : Tracked) : Tracked :=
  { panel := ev.run g.panel, last := ev.lastTools g.panel g.last }

/-- Runs a sequence of events, first to last. -/
def trackEvents : List PanelEvent → Tracked → Tracked
  | [], g => g
  | ev :: evs, g => trackEvents evs (ev.track g)

/-! ## Concrete data -/

/-- A configuration that stores colour 255 for the text tool and colour 0 for
every other tool; the remaining settings are the same for every tool. -/
def sampleConfig : Config :=
  { mSelectedTool := ToolTypes.Arrow
    mToolColor := fun t => if t = ToolTypes.Text then ⟨255⟩ else ⟨0⟩
    mToolTextColor := fun _ => ⟨0⟩
    mToolWidth := fun _ => 3
    mToolFillType := fun _ => ⟨0⟩
    mToolFontSize := fun _ => 12
    mBlurRadius := 5 }

/-- Widget contents equal to the settings `sampleConfig` stores for the text
tool, with the text tool in the tool picker. -/
def sampleWidgets : FreshWidgets :=
  { tool := ToolTypes.Text
    color := ⟨255⟩
    width := 3
    textColor := ⟨0⟩
    fontSize := 12
    fillType := ⟨0⟩
    firstNumber := 1
    blurRadius := 5
    currentTool := ToolTypes.Text }

/-- A panel over `sampleConfig` whose pickers hold the text tool's settings. -/
def samplePanel : AnnotationSettings :=
  AnnotationSettings.initGui sampleConfig sampleWidgets

/-- A blur item whose colour is stored nowhere in `sampleConfig`. -/
def sampleItem : AbstractAnnotationItem :=
  { mProperties := PropertiesPtr.blur ⟨⟨7⟩, ⟨0⟩, 3, ⟨0⟩⟩ 9
    mToolType := ToolTypes.Blur }

/-- The sample panel, every per-tool picker last loaded for the text tool. -/
def sampleTracked : Tracked :=
  { panel := samplePanel, last := LastTools.all ToolTypes.Text }

/-- A sequence of events in which settings change: the color is edited to 9
under the text tool, the blur tool is selected, the width is edited to 8 and
the blur radius to 11, the select tool is activated, a starting number is
picked and the text tool's settings are loaded again. -/
def sampleEvents : List PanelEvent :=
  [PanelEvent.pickerChanged (.colorPickerColorSelected ⟨9⟩),
   PanelEvent.pickerChanged (.toolPickerToolSelected ToolTypes.Blur),
   PanelEvent.pickerChanged (.widthPickerNumberSelected 8),
   PanelEvent.pickerChanged (.blurRadiusPickerNumberSelected 11),
   PanelEvent.activateSelectTool,
   PanelEvent.pickerChanged (.firstNumberPickerNumberSelected 4),
   PanelEvent.loadFromConfig ToolTypes.Text]

/-- The pickers and the configurator of `s2` are those of `s1`. -/
def SameWidgets (s1 s2 : AnnotationSettings) : Prop :=
  s2.mToolPicker = s1.mToolPicker ∧
  s2.mColorPicker = s1.mColorPicker ∧
  s2.mWidthPicker = s1.mWidthPicker ∧
  s2.mTextColorPicker = s1.mTextColorPicker ∧
  s2.mFontSizePicker = s1.mFontSizePicker ∧
  s2.mFillTypePicker = s1.mFillTypePicker ∧
  s2.mFirstNumberPicker = s1.mFirstNumberPicker ∧
  s2.mBlurRadiusPicker = s1.mBlurRadiusPicker ∧
  s2.mWidgetConfigurator = s1.mWidgetConfigurator

/-! ## Theorems -/

open AnnotationSettings

/-- C1: for every tool `t` and every panel and config state, after
`saveToolType t` (the slot connected to the tool picker's `toolSelected`) the
config's selected tool is `t`, every picker shows the setting the config holds
for `t` (the blur radius picker the config's blur radius), these are the
settings that were persisted before the call, and the widget configurator's
current tool is `t`. -/
theorem saveToolType_shows_persisted_settings (s : AnnotationSettings) (t : ToolTypes) :
    connected (.toolPickerToolSelected t) s = s.saveToolType t ∧
    (s.saveToolType t).mConfig.selectedTool = t ∧
    (s.saveToolType t).toolColor = (s.saveToolType t).mConfig.toolColor t ∧
    (s.saveToolType t).textColor = (s.saveToolType t).mConfig.toolTextColor t ∧
    (s.saveToolType t).toolWidth = (s.saveToolType t).mConfig.toolWidth t ∧
    (s.saveToolType t).fillType = (s.saveToolType t).mConfig.toolFillType t ∧
    (s.saveToolType t).fontSize = (s.saveToolType t).mConfig.toolFontSize t ∧
    (s.saveToolType t).blurRadius = (s.saveToolType t).mConfig.blurRadius ∧
    (s.saveToolType t).mWidgetConfigurator.mCurrentTool = t ∧
    (s.saveToolType t).mConfig.toolColor t = s.mConfig.toolColor t ∧
    (s.saveToolType t).mConfig.toolTextColor t = s.mConfig.toolTextColor t ∧
    (s.saveToolType t).mConfig.toolWidth t = s.mConfig.toolWidth t ∧
    (s.saveToolType t).mConfig.toolFillType t = s.mConfig.toolFillType t ∧
    (s.saveToolType t).mConfig.toolFontSize t = s.mConfig.toolFontSize t ∧
    (s.saveToolType t).mConfig.blurRadius = s.mConfig.blurRadius :=
  ⟨rfl, rfl, rfl, rfl, rfl, rfl, rfl, rfl, rfl, rfl, rfl, rfl, rfl, rfl, rfl⟩

/-- C2, as stated, fails for the starting-number picker: its slot leaves the
config as it was, so no getter of the config can return the value. On the
sample panel the slot run for the values 1 and 2 yields the same config and the
same selected tool, and no function of these returns 1 in one case and 2 in
the other. -/
theorem starting_number_not_persisted :
    (connected (.firstNumberPickerNumberSelected 1) samplePanel).mConfig = samplePanel.mConfig ∧
    ¬ ∃ getter : Config → ToolTypes → Int,
      getter (connected (.firstNumberPickerNumberSelected 1) samplePanel).mConfig
          (connected (.firstNumberPickerNumberSelected 1) samplePanel).toolType = 1 ∧
      getter (connected (.firstNumberPickerNumberSelected 2) samplePanel).mConfig
          (connected (.firstNumberPickerNumberSelected 2) samplePanel).toolType = 2 := by
  refine ⟨rfl, ?_⟩
  rintro ⟨getter, h1, h2⟩
  have h : (1 : Int) = 2 := h1.symm.trans h2
  exact absurd h (by decide)

/-- C2, amended: for the color, text color, width, fill type and font size
pickers and every value `v`, the slot connected to the picker's value-changed
signal stores `v` in the config under the selected tool `toolType()` (the same
tool before and after the slot); the slot of the blur radius picker stores `v`
as the config's single blur radius; the slot of the starting-number picker
leaves the config unchanged. -/
theorem picker_slots_persist_under_selected_tool (s : AnnotationSettings) :
    (∀ v, (connected (.colorPickerColorSelected v) s).toolType = s.toolType ∧
      (connected (.colorPickerColorSelected v) s).mConfig.toolColor s.toolType = v) ∧
    (∀ v, (connected (.textColorPickerColorSelected v) s).toolType = s.toolType ∧
      (connected (.textColorPickerColorSelected v) s).mConfig.toolTextColor s.toolType = v) ∧
    (∀ v, (connected (.widthPickerNumberSelected v) s).toolType = s.toolType ∧
      (connected (.widthPickerNumberSelected v) s).mConfig.toolWidth s.toolType = v) ∧
    (∀ v, (connected (.fillTypePickerFillSelected v) s).toolType = s.toolType ∧
      (connected (.fillTypePickerFillSelected v) s).mConfig.toolFillType s.toolType = v) ∧
    (∀ v, (connected (.fontSizePickerNumberSelected v) s).toolType = s.toolType ∧
      (connected (.fontSizePickerNumberSelected v) s).mConfig.toolFontSize s.toolType = v) ∧
    (∀ v, (connected (.blurRadiusPickerNumberSelected v) s).toolType = s.toolType ∧
      (connected (.blurRadiusPickerNumberSelected v) s).mConfig.blurRadius = v) ∧
    (∀ v, (connected (.firstNumberPickerNumberSelected v) s).mConfig = s.mConfig) := by
  refine ⟨?_, ?_, ?_, ?_, ?_, ?_, ?_⟩
  · intro v
    exact ⟨rfl, by simp [connected, saveToolColor, configSetToolColor, record,
      Config.setToolColor, Config.toolColor, toolType]⟩
  · intro v
    exact ⟨rfl, by simp [connected, saveToolTextColor, configSetToolTextColor, record,
      Config.setToolTextColor, Config.toolTextColor, toolType]⟩
  · intro v
    exact ⟨rfl, by simp [connected, saveToolWidth, configSetToolWidth, record,
      Config.setToolWidth, Config.toolWidth, toolType]⟩
  · intro v
    exact ⟨rfl, by simp [connected, saveToolFillType, configSetToolFillType, record,
      Config.setToolFillType, Config.toolFillType, toolType]⟩
  · intro v
    exact ⟨rfl, by simp [connected, saveToolFontSize, configSetToolFontSize, record,
      Config.setToolFontSize, Config.toolFontSize, toolType]⟩
  · intro v
    exact ⟨rfl, rfl⟩
  · intro v
    rfl

/-- C6: for every integer `n`, `saveFirstBadgeNumber n` (the slot connected to
the starting-number picker) emits exactly `firstBadgeNumberChanged n`: that
signal is the only call added to the record; the config, every picker and the
configurator are unchanged. -/
theorem saveFirstBadgeNumber_only_notifies (s : AnnotationSettings) (n : Int) :
    connected (.firstNumberPickerNumberSelected n) s = s.saveFirstBadgeNumber n ∧
    (s.saveFirstBadgeNumber n).calls = s.calls ++ [Call.emitFirstBadgeNumberChanged n] ∧
    (s.saveFirstBadgeNumber n).mConfig = s.mConfig ∧
    SameWidgets s (s.saveFirstBadgeNumber n) ∧
    (s.saveFirstBadgeNumber n).toolType = s.toolType ∧
    (s.saveFirstBadgeNumber n).toolColor = s.toolColor ∧
    (s.saveFirstBadgeNumber n).textColor = s.textColor ∧
    (s.saveFirstBadgeNumber n).toolWidth = s.toolWidth ∧
    (s.saveFirstBadgeNumber n).fillType = s.fillType ∧
    (s.saveFirstBadgeNumber n).fontSize = s.fontSize ∧
    (s.saveFirstBadgeNumber n).blurRadius = s.blurRadius :=
  ⟨rfl, rfl, rfl, ⟨rfl, rfl, rfl, rfl, rfl, rfl, rfl, rfl, rfl⟩, rfl, rfl, rfl, rfl, rfl, rfl,
    rfl⟩

/-- C7: for every config (and whatever the freshly constructed widgets hold),
right after the constructor the tool picker holds the persisted selected tool,
`toolType() = config.selectedTool()`, and the config is the one passed in. -/
theorem constructor_reflects_selected_tool (config : Config) (w : FreshWidgets) :
    (AnnotationSettings.create config w).toolType = config.selectedTool ∧
    (AnnotationSettings.create config w).mConfig = config :=
  ⟨rfl, rfl⟩

/-- C3: for every annotation item, `loadFromItem item` returns (it is a total
function, it raises no error) with the color, text color, width and fill type
pickers holding the color, text color, width and fill type of the item's
properties and the configurator's current tool equal to the item's tool type.
If the properties are text properties, the font size picker holds the font's
point size and the blur radius picker keeps its previous value; if they are
blur properties, the blur radius picker holds the radius and the font size
picker keeps its previous value; if they are neither, both keep their previous
values. The calls made are exactly the four unconditional picker sets, then a
font size set for text properties only, or a blur radius set for blur
properties only, then the configurator call. -/
theorem loadFromItem_loads_properties (s : AnnotationSettings) (item : AbstractAnnotationItem) :
    (s.loadFromItem item).mWidgetConfigurator.mCurrentTool = item.mToolType ∧
    match item.mProperties with
    | PropertiesPtr.basic p =>
      (s.loadFromItem item).toolColor = p.mColor ∧
      (s.loadFromItem item).textColor = p.mTextColor ∧
      (s.loadFromItem item).toolWidth = p.mWidth ∧
      (s.loadFromItem item).fillType = p.mFillType ∧
      (s.loadFromItem item).fontSize = s.fontSize ∧
      (s.loadFromItem item).blurRadius = s.blurRadius ∧
      (s.loadFromItem item).calls =
        s.calls ++
          [Call.colorPickerSetColor p.mColor,
           Call.textColorPickerSetColor p.mTextColor,
           Call.widthPickerSetNumber p.mWidth,
           Call.fillTypePickerSetFillType p.mFillType,
           Call.configuratorSetCurrentTool item.mToolType]
    | PropertiesPtr.text p font =>
      (s.loadFromItem item).toolColor = p.mColor ∧
      (s.loadFromItem item).textColor = p.mTextColor ∧
      (s.loadFromItem item).toolWidth = p.mWidth ∧
      (s.loadFromItem item).fillType = p.mFillType ∧
      (s.loadFromItem item).fontSize = font.mPointSize ∧
      (s.loadFromItem item).blurRadius = s.blurRadius ∧
      (s.loadFromItem item).calls =
        s.calls ++
          [Call.colorPickerSetColor p.mColor,
           Call.textColorPickerSetColor p.mTextColor,
           Call.widthPickerSetNumber p.mWidth,
           Call.fillTypePickerSetFillType p.mFillType,
           Call.fontSizePickerSetNumber font.mPointSize,
           Call.configuratorSetCurrentTool item.mToolType]
    | PropertiesPtr.blur p radius =>
      (s.loadFromItem item).toolColor = p.mColor ∧
      (s.loadFromItem item).textColor = p.mTextColor ∧
      (s.loadFromItem item).toolWidth = p.mWidth ∧
      (s.loadFromItem item).fillType = p.mFillType ∧
      (s.loadFromItem item).fontSize = s.fontSize ∧
      (s.loadFromItem item).blurRadius = radius ∧
      (s.loadFromItem item).calls =
        s.calls ++
          [Call.colorPickerSetColor p.mColor,
           Call.textColorPickerSetColor p.mTextColor,
           Call.widthPickerSetNumber p.mWidth,
           Call.fillTypePickerSetFillType p.mFillType,
           Call.blurRadiusPickerSetNumber radius,
           Call.configuratorSetCurrentTool item.mToolType] := by
  obtain ⟨props, tool⟩ := item
  cases props <;>
    simp [loadFromItem, AbstractAnnotationItem.properties, AbstractAnnotationItem.toolType,
      PropertiesPtr.asTextProperties, PropertiesPtr.asBlurProperties, PropertiesPtr.color,
      PropertiesPtr.textColor, PropertiesPtr.width, PropertiesPtr.fillType,
      PropertiesPtr.base, QFont.pointSize, colorPickerSetColor,
      textColorPickerSetColor, widthPickerSetNumber, fillTypePickerSetFillType,
      fontSizePickerSetNumber, blurRadiusPickerSetNumber, configuratorSetCurrentTool, record,
      toolColor, textColor, toolWidth, fillType, fontSize, blurRadius, ColorPicker.color,
      ColorPicker.setColor, NumberPicker.number, NumberPicker.setNumber,
      FillTypePicker.fillType, FillTypePicker.setFillType, WidgetConfigurator.setCurrentTool]

/-- C5: for every tool `t`, `saveToolType t` adds to the record of calls, in
this order, the config write of the selected tool, the six picker loads from
the config for `t`, the configurator call and, last, the single emission
`toolChanged t`. At the emission the config's selected tool is `t` and the
pickers hold the config's settings for `t`. None of saveToolColor,
saveToolTextColor, saveToolWidth, saveToolFillType, saveToolFontSize,
saveBlurRadius, loadFromItem, loadFromConfig and activateSelectTool adds an
emission of `toolChanged` to the record. -/
theorem toolChanged_emitted_once_after_load (s : AnnotationSettings) (t : ToolTypes) :
    (s.saveToolType t).calls =
      s.calls ++
        [Call.configSetSelectedTool t,
         Call.colorPickerSetColor (s.mConfig.toolColor t),
         Call.textColorPickerSetColor (s.mConfig.toolTextColor t),
         Call.widthPickerSetNumber (s.mConfig.toolWidth t),
         Call.fillTypePickerSetFillType (s.mConfig.toolFillType t),
         Call.fontSizePickerSetNumber (s.mConfig.toolFontSize t),
         Call.blurRadiusPickerSetNumber s.mConfig.blurRadius,
         Call.configuratorSetCurrentTool t,
         Call.emitToolChanged t] ∧
    ((s.saveToolType t).calls.filter Call.isEmit) =
      s.calls.filter Call.isEmit ++ [Call.emitToolChanged t] ∧
    (∃ s2 : AnnotationSettings,
      s.saveToolType t = s2.emitToolChanged t ∧
      s2 = (s.configSetSelectedTool t).loadFromConfig t ∧
      s2.mConfig.selectedTool = t ∧
      s2.toolColor = s2.mConfig.toolColor t ∧
      s2.textColor = s2.mConfig.toolTextColor t ∧
      s2.toolWidth = s2.mConfig.toolWidth t ∧
      s2.fillType = s2.mConfig.toolFillType t ∧
      s2.fontSize = s2.mConfig.toolFontSize t ∧
      s2.blurRadius = s2.mConfig.blurRadius ∧
      s2.calls.filter Call.isToolChanged = s.calls.filter Call.isToolChanged) ∧
    (∀ c, (s.saveToolColor c).calls.filter Call.isToolChanged =
      s.calls.filter Call.isToolChanged) ∧
    (∀ c, (s.saveToolTextColor c).calls.filter Call.isToolChanged =
      s.calls.filter Call.isToolChanged) ∧
    (∀ n, (s.saveToolWidth n).calls.filter Call.isToolChanged =
      s.calls.filter Call.isToolChanged) ∧
    (∀ f, (s.saveToolFillType f).calls.filter Call.isToolChanged =
      s.calls.filter Call.isToolChanged) ∧
    (∀ n, (s.saveToolFontSize n).calls.filter Call.isToolChanged =
      s.calls.filter Call.isToolChanged) ∧
    (∀ n, (s.saveBlurRadius n).calls.filter Call.isToolChanged =
      s.calls.filter Call.isToolChanged) ∧
    (∀ item, (s.loadFromItem item).calls.filter Call.isToolChanged =
      s.calls.filter Call.isToolChanged) ∧
    (∀ tool, (s.loadFromConfig tool).calls.filter Call.isToolChanged =
      s.calls.filter Call.isToolChanged) ∧
    s.activateSelectTool.calls.filter Call.isToolChanged =
      s.calls.filter Call.isToolChanged := by
  refine ⟨?_, ?_, ?_, ?_, ?_, ?_, ?_, ?_, ?_, ?_, ?_, ?_⟩
  · simp [saveToolType, loadFromConfig, configSetSelectedTool, emitToolChanged,
      colorPickerSetColor, textColorPickerSetColor, widthPickerSetNumber,
      fillTypePickerSetFillType, fontSizePickerSetNumber, blurRadiusPickerSetNumber,
      configuratorSetCurrentTool, record, Config.setSelectedTool, Config.toolColor,
      Config.toolTextColor, Config.toolWidth, Config.toolFillType, Config.toolFontSize,
      Config.blurRadius]
  · simp [saveToolType, loadFromConfig, configSetSelectedTool, emitToolChanged,
      colorPickerSetColor, textColorPickerSetColor, widthPickerSetNumber,
      fillTypePickerSetFillType, fontSizePickerSetNumber, blurRadiusPickerSetNumber,
      configuratorSetCurrentTool, record, List.filter_append, Call.isEmit]
  · refine ⟨(s.configSetSelectedTool t).loadFromConfig t, rfl, rfl, rfl, rfl, rfl, rfl, rfl,
      rfl, rfl, ?_⟩
    simp [loadFromConfig, configSetSelectedTool,
      colorPickerSetColor, textColorPickerSetColor, widthPickerSetNumber,
      fillTypePickerSetFillType, fontSizePickerSetNumber, blurRadiusPickerSetNumber,
      configuratorSetCurrentTool, record, List.filter_append, Call.isToolChanged]
  · intro c
    simp [saveToolColor, configSetToolColor, record, List.filter_append, Call.isToolChanged]
  · intro c
    simp [saveToolTextColor, configSetToolTextColor, record, List.filter_append,
      Call.isToolChanged]
  · intro n
    simp [saveToolWidth, configSetToolWidth, record, List.filter_append, Call.isToolChanged]
  · intro f
    simp [saveToolFillType, configSetToolFillType, record, List.filter_append,
      Call.isToolChanged]
  · intro n
    simp [saveToolFontSize, configSetToolFontSize, record, List.filter_append,
      Call.isToolChanged]
  · intro n
    simp [saveBlurRadius, configSetBlurRadius, record, List.filter_append, Call.isToolChanged]
  · rintro ⟨props, tool⟩
    cases props <;>
      simp [loadFromItem, AbstractAnnotationItem.properties, AbstractAnnotationItem.toolType,
        PropertiesPtr.asTextProperties, PropertiesPtr.asBlurProperties, colorPickerSetColor,
        textColorPickerSetColor, widthPickerSetNumber, fillTypePickerSetFillType,
        fontSizePickerSetNumber, blurRadiusPickerSetNumber, configuratorSetCurrentTool,
        record, List.filter_append, Call.isToolChanged]
  · intro tool
    simp [loadFromConfig, colorPickerSetColor, textColorPickerSetColor, widthPickerSetNumber,
      fillTypePickerSetFillType, fontSizePickerSetNumber, blurRadiusPickerSetNumber,
      configuratorSetCurrentTool, record, List.filter_append, Call.isToolChanged]
  · simp [activateSelectTool, toolPickerSetTool, configuratorSetCurrentTool, record,
      List.filter_append, Call.isToolChanged]

/-- C8: each of saveToolColor, saveToolTextColor, saveToolWidth,
saveToolFillType and saveToolFontSize, for every value `v` and panel state,
adds exactly one call to the record, the matching config setter with arguments
`(v, toolType())`, so it emits no signal; the resulting config is the result
of that setter; every picker, the tool picker and the configurator are
unchanged; in the config the selected tool, the blur radius, the other four
settings of every tool and the same setting of every tool other than
`toolType()` are unchanged. -/
theorem save_slots_forward_one_write (s : AnnotationSettings) :
    (∀ v, (s.saveToolColor v).calls = s.calls ++ [Call.configSetToolColor v s.toolType] ∧
      (s.saveToolColor v).mConfig = s.mConfig.setToolColor v s.toolType ∧
      SameWidgets s (s.saveToolColor v) ∧
      (s.saveToolColor v).toolType = s.toolType ∧
      (s.saveToolColor v).mConfig.selectedTool = s.mConfig.selectedTool ∧
      (∀ t, (s.saveToolColor v).mConfig.toolColor t =
        if t = s.toolType then v else s.mConfig.toolColor t) ∧
      (∀ t, (s.saveToolColor v).mConfig.toolTextColor t = s.mConfig.toolTextColor t) ∧
      (∀ t, (s.saveToolColor v).mConfig.toolWidth t = s.mConfig.toolWidth t) ∧
      (∀ t, (s.saveToolColor v).mConfig.toolFillType t = s.mConfig.toolFillType t) ∧
      (∀ t, (s.saveToolColor v).mConfig.toolFontSize t = s.mConfig.toolFontSize t) ∧
      (s.saveToolColor v).mConfig.blurRadius = s.mConfig.blurRadius) ∧
    (∀ v, (s.saveToolTextColor v).calls = s.calls ++ [Call.configSetToolTextColor v s.toolType] ∧
      (s.saveToolTextColor v).mConfig = s.mConfig.setToolTextColor v s.toolType ∧
      SameWidgets s (s.saveToolTextColor v) ∧
      (s.saveToolTextColor v).toolType = s.toolType ∧
      (s.saveToolTextColor v).mConfig.selectedTool = s.mConfig.selectedTool ∧
      (∀ t, (s.saveToolTextColor v).mConfig.toolColor t = s.mConfig.toolColor t) ∧
      (∀ t, (s.saveToolTextColor v).mConfig.toolTextColor t =
        if t = s.toolType then v else s.mConfig.toolTextColor t) ∧
      (∀ t, (s.saveToolTextColor v).mConfig.toolWidth t = s.mConfig.toolWidth t) ∧
      (∀ t, (s.saveToolTextColor v).mConfig.toolFillType t = s.mConfig.toolFillType t) ∧
      (∀ t, (s.saveToolTextColor v).mConfig.toolFontSize t = s.mConfig.toolFontSize t) ∧
      (s.saveToolTextColor v).mConfig.blurRadius = s.mConfig.blurRadius) ∧
    (∀ v, (s.saveToolWidth v).calls = s.calls ++ [Call.configSetToolWidth v s.toolType] ∧
      (s.saveToolWidth v).mConfig = s.mConfig.setToolWidth v s.toolType ∧
      SameWidgets s (s.saveToolWidth v) ∧
      (s.saveToolWidth v).toolType = s.toolType ∧
      (s.saveToolWidth v).mConfig.selectedTool = s.mConfig.selectedTool ∧
      (∀ t, (s.saveToolWidth v).mConfig.toolColor t = s.mConfig.toolColor t) ∧
      (∀ t, (s.saveToolWidth v).mConfig.toolTextColor t = s.mConfig.toolTextColor t) ∧
      (∀ t, (s.saveToolWidth v).mConfig.toolWidth t =
        if t = s.toolType then v else s.mConfig.toolWidth t) ∧
      (∀ t, (s.saveToolWidth v).mConfig.toolFillType t = s.mConfig.toolFillType t) ∧
      (∀ t, (s.saveToolWidth v).mConfig.toolFontSize t = s.mConfig.toolFontSize t) ∧
      (s.saveToolWidth v).mConfig.blurRadius = s.mConfig.blurRadius) ∧
    (∀ v, (s.saveToolFillType v).calls = s.calls ++ [Call.configSetToolFillType v s.toolType] ∧
      (s.saveToolFillType v).mConfig = s.mConfig.setToolFillType v s.toolType ∧
      SameWidgets s (s.saveToolFillType v) ∧
      (s.saveToolFillType v).toolType = s.toolType ∧
      (s.saveToolFillType v).mConfig.selectedTool = s.mConfig.selectedTool ∧
      (∀ t, (s.saveToolFillType v).mConfig.toolColor t = s.mConfig.toolColor t) ∧
      (∀ t, (s.saveToolFillType v).mConfig.toolTextColor t = s.mConfig.toolTextColor t) ∧
      (∀ t, (s.saveToolFillType v).mConfig.toolWidth t = s.mConfig.toolWidth t) ∧
      (∀ t, (s.saveToolFillType v).mConfig.toolFillType t =
        if t = s.toolType then v else s.mConfig.toolFillType t) ∧
      (∀ t, (s.saveToolFillType v).mConfig.toolFontSize t = s.mConfig.toolFontSize t) ∧
      (s.saveToolFillType v).mConfig.blurRadius = s.mConfig.blurRadius) ∧
    (∀ v, (s.saveToolFontSize v).calls = s.calls ++ [Call.configSetToolFontSize v s.toolType] ∧
      (s.saveToolFontSize v).mConfig = s.mConfig.setToolFontSize v s.toolType ∧
      SameWidgets s (s.saveToolFontSize v) ∧
      (s.saveToolFontSize v).toolType = s.toolType ∧
      (s.saveToolFontSize v).mConfig.selectedTool = s.mConfig.selectedTool ∧
      (∀ t, (s.saveToolFontSize v).mConfig.toolColor t = s.mConfig.toolColor t) ∧
      (∀ t, (s.saveToolFontSize v).mConfig.toolTextColor t = s.mConfig.toolTextColor t) ∧
      (∀ t, (s.saveToolFontSize v).mConfig.toolWidth t = s.mConfig.toolWidth t) ∧
      (∀ t, (s.saveToolFontSize v).mConfig.toolFillType t = s.mConfig.toolFillType t) ∧
      (∀ t, (s.saveToolFontSize v).mConfig.toolFontSize t =
        if t = s.toolType then v else s.mConfig.toolFontSize t) ∧
      (s.saveToolFontSize v).mConfig.blurRadius = s.mConfig.blurRadius) := by
  refine ⟨?_, ?_, ?_, ?_, ?_⟩
  · intro v
    exact ⟨rfl, rfl, ⟨rfl, rfl, rfl, rfl, rfl, rfl, rfl, rfl, rfl⟩, rfl, rfl,
      fun _ => rfl, fun _ => rfl, fun _ => rfl, fun _ => rfl, fun _ => rfl, rfl⟩
  · intro v
    exact ⟨rfl, rfl, ⟨rfl, rfl, rfl, rfl, rfl, rfl, rfl, rfl, rfl⟩, rfl, rfl,
      fun _ => rfl, fun _ => rfl, fun _ => rfl, fun _ => rfl, fun _ => rfl, rfl⟩
  · intro v
    exact ⟨rfl, rfl, ⟨rfl, rfl, rfl, rfl, rfl, rfl, rfl, rfl, rfl⟩, rfl, rfl,
      fun _ => rfl, fun _ => rfl, fun _ => rfl, fun _ => rfl, fun _ => rfl, rfl⟩
  · intro v
    exact ⟨rfl, rfl, ⟨rfl, rfl, rfl, rfl, rfl, rfl, rfl, rfl, rfl⟩, rfl, rfl,
      fun _ => rfl, fun _ => rfl, fun _ => rfl, fun _ => rfl, fun _ => rfl, rfl⟩
  · intro v
    exact ⟨rfl, rfl, ⟨rfl, rfl, rfl, rfl, rfl, rfl, rfl, rfl, rfl⟩, rfl, rfl,
      fun _ => rfl, fun _ => rfl, fun _ => rfl, fun _ => rfl, fun _ => rfl, rfl⟩

/-- C9: for every item and every tool `t` (equal to `toolType()` or not),
loadFromItem, loadFromConfig and activateSelectTool leave the config unchanged
and add no config write to the record of calls, and loadFromItem and
loadFromConfig leave the tool picker unchanged. Consequently `loadFromConfig t`
followed by `saveToolColor c` makes exactly the write `setToolColor(c,
toolType())`: `c` is stored under `toolType()`, the color of every other tool
is as before, so for `t` different from `toolType()` the color stored under `t`
is unchanged. After activateSelectTool, `toolType()` is `Select` and the
config's selected tool is the previous one. -/
theorem loaders_do_not_write_config (s : AnnotationSettings) (item : AbstractAnnotationItem)
    (t : ToolTypes) (c : QColor) :
    (s.loadFromItem item).mConfig = s.mConfig ∧
    (s.loadFromConfig t).mConfig = s.mConfig ∧
    s.activateSelectTool.mConfig = s.mConfig ∧
    (s.loadFromItem item).calls.filter Call.isConfigWrite =
      s.calls.filter Call.isConfigWrite ∧
    (s.loadFromConfig t).calls.filter Call.isConfigWrite =
      s.calls.filter Call.isConfigWrite ∧
    s.activateSelectTool.calls.filter Call.isConfigWrite =
      s.calls.filter Call.isConfigWrite ∧
    (s.loadFromItem item).mToolPicker = s.mToolPicker ∧
    (s.loadFromItem item).toolType = s.toolType ∧
    (s.loadFromConfig t).mToolPicker = s.mToolPicker ∧
    (s.loadFromConfig t).toolType = s.toolType ∧
    ((s.loadFromConfig t).saveToolColor c).calls =
      (s.loadFromConfig t).calls ++ [Call.configSetToolColor c s.toolType] ∧
    ((s.loadFromConfig t).saveToolColor c).mConfig.toolColor s.toolType = c ∧
    (∀ u, ((s.loadFromConfig t).saveToolColor c).mConfig.toolColor u =
      if u = s.toolType then c else s.mConfig.toolColor u) ∧
    (t ≠ s.toolType →
      ((s.loadFromConfig t).saveToolColor c).mConfig.toolColor t = s.mConfig.toolColor t) ∧
    s.activateSelectTool.toolType = ToolTypes.Select ∧
    s.activateSelectTool.mConfig.selectedTool = s.mConfig.selectedTool := by
  have hitem : (s.loadFromItem item).mConfig = s.mConfig ∧
      (s.loadFromItem item).calls.filter Call.isConfigWrite =
        s.calls.filter Call.isConfigWrite ∧
      (s.loadFromItem item).mToolPicker = s.mToolPicker := by
    obtain ⟨props, tool⟩ := item
    cases props <;>
      simp [loadFromItem, AbstractAnnotationItem.properties, AbstractAnnotationItem.toolType,
        PropertiesPtr.asTextProperties, PropertiesPtr.asBlurProperties, colorPickerSetColor,
        textColorPickerSetColor, widthPickerSetNumber, fillTypePickerSetFillType,
        fontSizePickerSetNumber, blurRadiusPickerSetNumber, configuratorSetCurrentTool,
        record, List.filter_append, Call.isConfigWrite]
  have hall : ∀ u, ((s.loadFromConfig t).saveToolColor c).mConfig.toolColor u =
      if u = s.toolType then c else s.mConfig.toolColor u := fun _ => rfl
  refine ⟨hitem.1, rfl, rfl, hitem.2.1, ?_, ?_, hitem.2.2, ?_, rfl, rfl, rfl, ?_, hall, ?_,
    rfl, rfl⟩
  · simp [loadFromConfig, colorPickerSetColor, textColorPickerSetColor, widthPickerSetNumber,
      fillTypePickerSetFillType, fontSizePickerSetNumber, blurRadiusPickerSetNumber,
      configuratorSetCurrentTool, record, List.filter_append, Call.isConfigWrite]
  · simp [activateSelectTool, toolPickerSetTool, configuratorSetCurrentTool, record,
      List.filter_append, Call.isConfigWrite]
  · show (s.loadFromItem item).mToolPicker.tool = s.mToolPicker.tool
    rw [hitem.2.2]
  · rw [hall]
    simp
  · intro h
    rw [hall]
    simp [h]

/-- Witness of C9 on the sample panel (text tool selected), loading the
settings of the blur tool and then saving color 9. -/
theorem loaders_do_not_write_config_witness :
    ToolTypes.Blur ≠ samplePanel.toolType ∧
    ((samplePanel.loadFromConfig ToolTypes.Blur).saveToolColor ⟨9⟩).mConfig.toolColor
      ToolTypes.Text = ⟨9⟩ ∧
    ((samplePanel.loadFromConfig ToolTypes.Blur).saveToolColor ⟨9⟩).mConfig.toolColor
      ToolTypes.Blur = ⟨0⟩ ∧
    samplePanel.activateSelectTool.toolType = ToolTypes.Select ∧
    samplePanel.activateSelectTool.mConfig.selectedTool = ToolTypes.Arrow :=
  have h := loaders_do_not_write_config samplePanel sampleItem ToolTypes.Blur ⟨9⟩
  ⟨by decide, h.2.2.2.2.2.2.2.2.2.2.2.1, h.2.2.2.2.2.2.2.2.2.2.2.2.2.1 (by decide),
    h.2.2.2.2.2.2.2.2.2.2.2.2.2.2.1, h.2.2.2.2.2.2.2.2.2.2.2.2.2.2.2⟩

/-- C10: `saveBlurRadius r` adds exactly the call `setBlurRadius(r)`, which
carries no tool, and makes the config's blur radius `r` without changing the
tool picker; for every tool `t` a following `loadFromConfig t` makes
`blurRadius()` equal to `r`, whereas the color, text color, width, fill type
and font size pickers then hold the config's settings of tool `t`. -/
theorem blur_radius_shared_by_all_tools (s : AnnotationSettings) (r : Int) (t : ToolTypes) :
    connected (.blurRadiusPickerNumberSelected r) s = s.saveBlurRadius r ∧
    (s.saveBlurRadius r).calls = s.calls ++ [Call.configSetBlurRadius r] ∧
    (s.saveBlurRadius r).mConfig = s.mConfig.setBlurRadius r ∧
    (s.saveBlurRadius r).mConfig.blurRadius = r ∧
    (s.saveBlurRadius r).toolType = s.toolType ∧
    ((s.saveBlurRadius r).loadFromConfig t).blurRadius = r ∧
    ((s.saveBlurRadius r).loadFromConfig t).toolColor = s.mConfig.toolColor t ∧
    ((s.saveBlurRadius r).loadFromConfig t).textColor = s.mConfig.toolTextColor t ∧
    ((s.saveBlurRadius r).loadFromConfig t).toolWidth = s.mConfig.toolWidth t ∧
    ((s.saveBlurRadius r).loadFromConfig t).fillType = s.mConfig.toolFillType t ∧
    ((s.saveBlurRadius r).loadFromConfig t).fontSize = s.mConfig.toolFontSize t :=
  ⟨rfl, rfl, rfl, rfl, rfl, rfl, rfl, rfl, rfl, rfl, rfl⟩

/-- One event keeps the mirroring invariant. -/
theorem MirrorsLast.step (ev : PanelEvent) (g : Tracked) (h : MirrorsLast g) :
    MirrorsLast (ev.track g) := by
  obtain ⟨h1, h2, h3, h4, h5, h6⟩ := h
  cases ev with
  | pickerChanged signal =>
    cases signal with
    | toolPickerToolSelected tool => exact ⟨rfl, rfl, rfl, rfl, rfl, rfl⟩
    | colorPickerColorSelected color =>
      refine ⟨?_, h2, h3, h4, h5, h6⟩
      simp [PanelEvent.track, PanelEvent.run, PanelEvent.lastTools, connected,
        PickerSignal.valueChanged, saveToolColor, configSetToolColor, record,
        Config.setToolColor, Config.toolColor, toolType, toolColor, ColorPicker.color,
        ColorPicker.setColor]
    | widthPickerNumberSelected number =>
      refine ⟨h1, h2, ?_, h4, h5, h6⟩
      simp [PanelEvent.track, PanelEvent.run, PanelEvent.lastTools, connected,
        PickerSignal.valueChanged, saveToolWidth, configSetToolWidth, record,
        Config.setToolWidth, Config.toolWidth, toolType, toolWidth, NumberPicker.number,
        NumberPicker.setNumber]
    | textColorPickerColorSelected color =>
      refine ⟨h1, ?_, h3, h4, h5, h6⟩
      simp [PanelEvent.track, PanelEvent.run, PanelEvent.lastTools, connected,
        PickerSignal.valueChanged, saveToolTextColor, configSetToolTextColor, record,
        Config.setToolTextColor, Config.toolTextColor, toolType, textColor, ColorPicker.color,
        ColorPicker.setColor]
    | fontSizePickerNumberSelected number =>
      refine ⟨h1, h2, h3, h4, ?_, h6⟩
      simp [PanelEvent.track, PanelEvent.run, PanelEvent.lastTools, connected,
        PickerSignal.valueChanged, saveToolFontSize, configSetToolFontSize, record,
        Config.setToolFontSize, Config.toolFontSize, toolType, fontSize, NumberPicker.number,
        NumberPicker.setNumber]
    | fillTypePickerFillSelected fill =>
      refine ⟨h1, h2, h3, ?_, h5, h6⟩
      simp [PanelEvent.track, PanelEvent.run, PanelEvent.lastTools, connected,
        PickerSignal.valueChanged, saveToolFillType, configSetToolFillType, record,
        Config.setToolFillType, Config.toolFillType, toolType, fillType,
        FillTypePicker.fillType, FillTypePicker.setFillType]
    | firstNumberPickerNumberSelected number => exact ⟨h1, h2, h3, h4, h5, h6⟩
    | blurRadiusPickerNumberSelected number => exact ⟨h1, h2, h3, h4, h5, rfl⟩
  | loadFromConfig tool => exact ⟨rfl, rfl, rfl, rfl, rfl, rfl⟩
  | activateSelectTool => exact ⟨h1, h2, h3, h4, h5, h6⟩
  | saveToolType tool => exact ⟨rfl, rfl, rfl, rfl, rfl, rfl⟩
  | saveFirstBadgeNumber number => exact ⟨h1, h2, h3, h4, h5, h6⟩

/-- The sample panel mirrors the sample config for the text tool. -/
theorem sampleTracked_mirrors : MirrorsLast sampleTracked :=
  ⟨rfl, rfl, rfl, rfl, rfl, rfl⟩

/-- C4, as stated, fails: the sample panel mirrors its config for the text
tool. After `loadFromItem` of an item of color 7 the color picker holds 7,
which the config stores neither for the tool the picker was last loaded for
nor for any other tool. After `saveToolColor 9` run while the color picker
holds 255, the config stores 9 for the selected tool and 255 for no tool, so
the picker no longer holds the value saved for it. -/
theorem mirroring_broken_by_loadFromItem_and_unmatched_save :
    MirrorsLast sampleTracked ∧
    ¬ MirrorsLast (trackAll [Operation.loadFromItem sampleItem] sampleTracked) ∧
    (trackAll [Operation.loadFromItem sampleItem] sampleTracked).panel.toolColor = ⟨7⟩ ∧
    (∀ t, (trackAll [Operation.loadFromItem sampleItem] sampleTracked).panel.mConfig.toolColor t
      ≠ ⟨7⟩) ∧
    ¬ MirrorsLast (trackAll [Operation.saveToolColor ⟨9⟩] sampleTracked) ∧
    (trackAll [Operation.saveToolColor ⟨9⟩] sampleTracked).panel.toolColor = ⟨255⟩ ∧
    (trackAll [Operation.saveToolColor ⟨9⟩] sampleTracked).panel.mConfig.toolColor
      (trackAll [Operation.saveToolColor ⟨9⟩] sampleTracked).panel.toolType = ⟨9⟩ ∧
    (∀ t, (trackAll [Operation.saveToolColor ⟨9⟩] sampleTracked).panel.mConfig.toolColor t
      ≠ ⟨255⟩) := by
  have hitem : ∀ t,
      (trackAll [Operation.loadFromItem sampleItem] sampleTracked).panel.mConfig.toolColor t
        ≠ ⟨7⟩ := by
    intro t
    show (if t = ToolTypes.Text then (⟨255⟩ : QColor) else ⟨0⟩) ≠ ⟨7⟩
    split <;> decide
  have hsave : ∀ t,
      (trackAll [Operation.saveToolColor ⟨9⟩] sampleTracked).panel.mConfig.toolColor t
        ≠ ⟨255⟩ := by
    intro t
    show (if t = ToolTypes.Text then (⟨9⟩ : QColor)
      else (if t = ToolTypes.Text then (⟨255⟩ : QColor) else ⟨0⟩)) ≠ ⟨255⟩
    by_cases ht : t = ToolTypes.Text
    · simp [ht]
    · simp [ht]
  refine ⟨sampleTracked_mirrors, ?_, rfl, hitem, ?_, rfl, rfl, hsave⟩
  · intro hm
    exact hitem _ hm.1.symm
  · intro hm
    exact hsave _ hm.1.symm

/-- C4, amended: in every state reached from a state where the invariant holds
by any sequence of events of the wired panel (a picker changing to a value
followed by its connected slot run with that value, for each of the eight
pickers, and calls of loadFromConfig, activateSelectTool, saveToolType and
saveFirstBadgeNumber), each of toolColor(), textColor(), toolWidth(),
fillType() and fontSize() equals the value the config stores for the tool that
picker was last loaded or saved for, and blurRadius() equals the config's blur
radius. -/
theorem mirroring_preserved_by_wired_events (evs : List PanelEvent) (g : Tracked)
    (h : MirrorsLast g) : MirrorsLast (trackEvents evs g) := by
  induction evs generalizing g with
  | nil => exact h
  | cons ev evs ih => exact ih (ev.track g) (MirrorsLast.step ev g h)

/-- Witness of C4 amended: the sample events change the color stored for the
text tool from 255 to 9, the width stored for the blur tool from 3 to 8 and
the blur radius from 5 to 11, and the invariant holds at the end, with the
pickers showing the text tool's settings while the select tool is active. -/
theorem mirroring_preserved_by_wired_events_witness :
    MirrorsLast sampleTracked ∧
    MirrorsLast (trackEvents sampleEvents sampleTracked) ∧
    sampleTracked.panel.mConfig.toolColor ToolTypes.Text = ⟨255⟩ ∧
    (trackEvents sampleEvents sampleTracked).panel.mConfig.toolColor ToolTypes.Text = ⟨9⟩ ∧
    (trackEvents sampleEvents sampleTracked).panel.mConfig.toolWidth ToolTypes.Blur = 8 ∧
    (trackEvents sampleEvents sampleTracked).panel.mConfig.blurRadius = 11 ∧
    (trackEvents sampleEvents sampleTracked).panel.toolColor = ⟨9⟩ ∧
    (trackEvents sampleEvents sampleTracked).panel.toolWidth = 3 ∧
    (trackEvents sampleEvents sampleTracked).panel.blurRadius = 11 ∧
    (trackEvents sampleEvents sampleTracked).panel.toolType = ToolTypes.Select ∧
    (trackEvents sampleEvents sampleTracked).last = LastTools.all ToolTypes.Text :=
  ⟨sampleTracked_mirrors,
    mirroring_preserved_by_wired_events sampleEvents sampleTracked sampleTracked_mirrors,
    rfl, rfl, rfl, rfl, rfl, rfl, rfl, rfl, rfl⟩

end kImageAnnotator
